import Mathlib

/-!
Verification development for the Yad2 car-scraping monitors.

The repository contains three monitor scripts:
* `car_scraper.py`      — set-based monitor: MD5 identity per listing, seen-set diff.
* `yad2_monitor.py`     — counter-based multi-URL monitor: per-search total counts,
                          bounded history, one JSON snapshot store.
* `smart_autodeal_monitor.py` — single-model monitor: total count plus an identity
                          list for the target model, bounded history.

Every definition below is a shallow embedding of the corresponding Python code,
translated line by line; comments cite the file and line numbers embedded.
-/

namespace Yad2Verification

set_option autoImplicit false
set_option maxRecDepth 100000

/-! ### Generic string helpers (Python `in` substring test, `str.lower`) -/

/-- Character-list version of "first argument is a leading segment of the second". -/
def leadsList : List Char → List Char → Bool
  | [], _ => true
  | _ :: _, [] => false
  | a :: as, b :: bs => a == b && leadsList as bs

/-- Character-list substring occurrence test. -/
def subList (needle : List Char) : List Char → Bool
  | [] => needle.isEmpty
  | b :: bs => leadsList needle (b :: bs) || subList needle bs

/-- Python `needle in hay` on strings. -/
def strIn (needle hay : String) : Bool :=
  subList needle.data hay.data

/-- ASCII lowercase of one character (the only case folding the scripts rely
on: CSS class names). -/
def asciiLower (c : Char) : Char :=
  if 65 ≤ c.toNat ∧ c.toNat ≤ 90 then Char.ofNat (c.toNat + 32) else c

/-- Python `str.lower`, restricted to the ASCII case folding the scripts rely on. -/
def pyLower (s : String) : String :=
  String.mk (s.data.map asciiLower)

/-! ### MD5 (identity deriver of `car_scraper.py`, lines 112-114)

`extract_car_data` computes `hashlib.md5(text_content.encode()).hexdigest()`.
We embed MD5 over byte lists (bytes as `Nat < 256`, 32-bit words as `Nat`
reduced modulo `2^32`), together with the UTF-8 encoding performed by
`str.encode()`. -/

/-- Reduce to a 32-bit word. -/
def u32 (n : Nat) : Nat := n % 4294967296

/-- 32-bit addition. -/
def add32 (a b : Nat) : Nat := u32 (a + b)

/-- 32-bit complement (argument assumed `< 2^32`). -/
def not32 (x : Nat) : Nat := 4294967295 - u32 x

/-- 32-bit left rotation. -/
def rotl32 (x s : Nat) : Nat := u32 ((x <<< s) ||| (x >>> (32 - s)))

/-- MD5 sine-derived constant table `K` (RFC 1321). -/
def md5K : List Nat :=
  [3614090360, 3905402710, 606105819, 3250441966, 4118548399, 1200080426, 2821735955, 4249261313,
   1770035416, 2336552879, 4294925233, 2304563134, 1804603682, 4254626195, 2792965006, 1236535329,
   4129170786, 3225465664, 643717713, 3921069994, 3593408605, 38016083, 3634488961, 3889429448,
   568446438, 3275163606, 4107603335, 1163531501, 2850285829, 4243563512, 1735328473, 2368359562,
   4294588738, 2272392833, 1839030562, 4259657740, 2763975236, 1272893353, 4139469664, 3200236656,
   681279174, 3936430074, 3572445317, 76029189, 3654602809, 3873151461, 530742520, 3299628645,
   4096336452, 1126891415, 2878612391, 4237533241, 1700485571, 2399980690, 4293915773, 2240044497,
   1873313359, 4264355552, 2734768916, 1309151649, 4149444226, 3174756917, 718787259, 3951481745]

/-- MD5 per-round shift table `s` (RFC 1321). -/
def md5S : List Nat :=
  [7, 12, 17, 22, 7, 12, 17, 22, 7, 12, 17, 22, 7, 12, 17, 22,
   5, 9, 14, 20, 5, 9, 14, 20, 5, 9, 14, 20, 5, 9, 14, 20,
   4, 11, 16, 23, 4, 11, 16, 23, 4, 11, 16, 23, 4, 11, 16, 23,
   6, 10, 15, 21, 6, 10, 15, 21, 6, 10, 15, 21, 6, 10, 15, 21]

/-- MD5 working state. -/
structure MD5State where
  a : Nat
  b : Nat
  c : Nat
  d : Nat
  deriving DecidableEq

/-- Initial MD5 state (RFC 1321). -/
def md5Init : MD5State := ⟨1732584193, 4023233417, 2562383102, 271733878⟩

/-- Little-endian 32-bit word `g` of a 64-byte chunk. -/
def leWord (chunk : List Nat) (g : Nat) : Nat :=
  chunk.getD (4 * g) 0 + chunk.getD (4 * g + 1) 0 * 256 +
    chunk.getD (4 * g + 2) 0 * 65536 + chunk.getD (4 * g + 3) 0 * 16777216

/-- One of the 64 MD5 rounds applied to the working state. -/
def md5Step (chunk : List Nat) (st : MD5State) (i : Nat) : MD5State :=
  let f :=
    if i < 16 then (st.b &&& st.c) ||| (not32 st.b &&& st.d)
    else if i < 32 then (st.b &&& st.d) ||| (st.c &&& not32 st.d)
    else if i < 48 then st.b ^^^ st.c ^^^ st.d
    else st.c ^^^ (st.b ||| not32 st.d)
  let g :=
    if i < 16 then i
    else if i < 32 then (5 * i + 1) % 16
    else if i < 48 then (3 * i + 5) % 16
    else (7 * i) % 16
  let tmp := u32 (f + st.a + md5K.getD i 0 + leWord chunk g)
  ⟨st.d, add32 st.b (rotl32 tmp (md5S.getD i 0)), st.b, st.c⟩

/-- Compress one 64-byte chunk into the state. -/
def md5Compress (st : MD5State) (chunk : List Nat) : MD5State :=
  let r := (List.range 64).foldl (md5Step chunk) st
  ⟨add32 st.a r.a, add32 st.b r.b, add32 st.c r.c, add32 st.d r.d⟩

/-- Little-endian byte rendering of a number, `n` bytes wide. -/
def leBytes (n v : Nat) : List Nat :=
  (List.range n).map (fun i => (v >>> (8 * i)) % 256)

/-- MD5 padding: `0x80`, zeros to 56 mod 64, then the 8-byte little-endian bit length. -/
def md5Pad (msg : List Nat) : List Nat :=
  let z := (119 - msg.length % 64) % 64
  msg ++ [128] ++ List.replicate z 0 ++ leBytes 8 (msg.length * 8)

/-- Split a byte list into 64-byte chunks (structural recursion on a fuel
counter so that the definition reduces inside the kernel; the fuel is an
upper bound on the number of chunks). -/
def chunksAux : Nat → List Nat → List (List Nat)
  | 0, _ => []
  | n + 1, l => if l = [] then [] else l.take 64 :: chunksAux n (l.drop 64)

/-- Split a byte list into 64-byte chunks. -/
def chunks64 (l : List Nat) : List (List Nat) :=
  chunksAux (l.length / 64 + 1) l

/-- Lowercase hexadecimal digit. -/
def hexDigit (n : Nat) : Char :=
  "0123456789abcdef".data.getD n '0'

/-- Two-digit lowercase hex of a byte. -/
def byteHex (b : Nat) : String :=
  String.mk [hexDigit (b / 16 % 16), hexDigit (b % 16)]

/-- Little-endian hex rendering of one 32-bit word. -/
def wordLEHex (w : Nat) : String :=
  byteHex (w % 256) ++ byteHex (w / 256 % 256) ++ byteHex (w / 65536 % 256) ++
    byteHex (w / 16777216 % 256)

/-- MD5 hex digest of a byte list — the embedding of `hashlib.md5(...).hexdigest()`. -/
def md5Hex (msg : List Nat) : String :=
  let st := (chunks64 (md5Pad msg)).foldl md5Compress md5Init
  wordLEHex st.a ++ wordLEHex st.b ++ wordLEHex st.c ++ wordLEHex st.d

/-- UTF-8 bytes of one code point (Python `str.encode()` per character). -/
def utf8Char (c : Nat) : List Nat :=
  if c < 128 then [c]
  else if c < 2048 then [192 + c / 64, 128 + c % 64]
  else if c < 65536 then [224 + c / 4096, 128 + c / 64 % 64, 128 + c % 64]
  else [240 + c / 262144, 128 + c / 4096 % 64, 128 + c / 64 % 64, 128 + c % 64]

/-- UTF-8 encoding of a string (Python `str.encode()`). -/
def utf8Encode (s : String) : List Nat :=
  (s.data.map (fun c => utf8Char c.toNat)).flatten

/-- Identity deriver of `car_scraper.py` lines 113-114:
`unique_id = hashlib.md5(text_content.encode()).hexdigest()`. -/
def extract_car_id (text : String) : String :=
  md5Hex (utf8Encode text)

/-- Python rendering of an optional field inside an f-string: `None` prints as "None". -/
def pyShow : Option String → String
  | none => "None"
  | some s => s

/-- Identity deriver of `smart_autodeal_monitor.py` line 164:
the composite key `model_year_price` built by the f-string. -/
def smart_car_id (model year price : Option String) : String :=
  pyShow model ++ "_" ++ pyShow year ++ "_" ++ pyShow price

/-! ### `car_scraper.py` — set-based monitor

The run loop (lines 208-251): scrape, diff against the seen set, send at most
5 per-car messages plus an optional summary, save only when new cars were
found, and send the "monitor initialized" message whenever
`len(self.seen_cars) <= len(cars)` (line 246). -/

/-- Keyword markers of the generic fallback scan, `car_scraper.py` line 95. -/
def fallbackKeywords : List String :=
  ["listing", "item", "card", "result", "offer", "vehicle", "car"]

/-- Generic fallback of `scrape_cars` (lines 90-96): every `div` that has a
class attribute is kept when the lowercased string form of its class list
contains one of the keywords. Input: the `str(container.get('class', []))`
strings of those divs, in document order. Note: the loop has no cap on how
many containers it keeps. -/
def carFallbackDivs (divClassStrs : List String) : List String :=
  divClassStrs.filter (fun c =>
    fallbackKeywords.any (fun k => strIn k (pyLower c)))

/-- The seen-set diff of `run` (lines 219-223): walk the extracted ids in
order; an id not yet in the seen set is both reported as new and added to the
set. Returns `(new ids in extraction order, seen set after)`. The seen set is
modelled as a duplicate-free list. -/
def carDiff (seen : List String) : List String → List String × List String
  | [] => ([], seen)
  | c :: rest =>
    if c ∈ seen then carDiff seen rest
    else
      let r := carDiff (seen ++ [c]) rest
      (c :: r.1, r.2)

/-- Messages the `run` method can send. -/
inductive CarMsg where
  /-- One "New Car Listed!" message for one record (line 230-232). -/
  | newCar (id : String)
  /-- The "Found N new cars total" summary (lines 236-238). -/
  | moreSummary (count : Nat)
  /-- The "Car monitor initialized! Tracking N current listings" message
  (lines 245-248). -/
  | initMsg (tracking : Nat)
  deriving DecidableEq

/-- The per-new-record messages of one run (lines 228-238): an individual
message for each of the first 5 new cars, then one summary when more than 5
were found. -/
def carNewRecordMsgs (newIds : List String) : List CarMsg :=
  (newIds.take 5).map CarMsg.newCar ++
    (if 5 < newIds.length then [CarMsg.moreSummary newIds.length] else [])

/-- Result of one `car_scraper.run` cycle. -/
structure CarRunResult where
  newIds : List String
  seenAfter : List String
  messages : List CarMsg
  saves : Nat
  deriving DecidableEq

/-- One `car_scraper.run` cycle (lines 208-251), as a function of the prior
seen set and the ids extracted this run, in extraction order. `save_seen_cars`
is called exactly when `new_cars` is non-empty (lines 240-241); the
initialization message is controlled by `len(self.seen_cars) <= len(cars)`
evaluated after the seen set was updated (line 246). -/
def carRun (seen cars : List String) : CarRunResult :=
  let r := carDiff seen cars
  { newIds := r.1
    seenAfter := r.2
    messages := carNewRecordMsgs r.1 ++
      (if r.2.length ≤ cars.length then [CarMsg.initMsg cars.length] else [])
    saves := if r.1 = [] then 0 else 1 }

/-! ### `yad2_monitor.py` — counter-based multi-URL monitor -/

/-- One bounded history entry, `yad2_monitor.py` lines 305-309. -/
structure HistEntry where
  time : String
  total : Int
  change : Int
  deriving DecidableEq

/-- One per-search snapshot slot, `yad2_monitor.py` lines 276-281. -/
structure SearchEntry where
  name : String
  url : String
  last_total : Int
  history : List HistEntry
  deriving DecidableEq

/-- The snapshot store `self.data['searches']`: a string-keyed map, modelled
as an association list. -/
abbrev Store : Type := List (String × SearchEntry)

/-- Dictionary lookup on the store. -/
def storeFind (s : Store) (k : String) : Option SearchEntry :=
  match s with
  | [] => none
  | (k₂, e) :: rest => if k₂ = k then some e else storeFind rest k

/-- Dictionary write on the store (replace when the key exists). -/
def storeInsert (s : Store) (k : String) (e : SearchEntry) : Store :=
  match s with
  | [] => [(k, e)]
  | (k₂, e₂) :: rest =>
    if k₂ = k then (k, e) :: rest else (k₂, e₂) :: storeInsert rest k e

/-- Snapshot slot key of a target, `yad2_monitor.py` line 260:
`search_key = url[:100]`. -/
def searchKey (url : String) : String := url.take 100

/-- The history trim of lines 311-314: keep only the last 50 entries. -/
def histTrim50 (h : List HistEntry) : List HistEntry :=
  if 50 < h.length then h.drop (h.length - 50) else h

/-- Per-target outcome of the multi-URL run loop. -/
inductive Outcome where
  /-- `current_total` was `None`: the target is appended to `errors`
  (lines 267-270). -/
  | fetchError (name : String)
  /-- No prior snapshot slot: the slot is created and the target is appended
  to `first_run_searches` (lines 275-287). -/
  | firstRun (name : String) (total : Int) (url : String)
  /-- Non-zero diff: appended to `all_changes` (lines 293-309). -/
  | changed (name url : String) (previous current diff : Int)
  /-- Zero diff: nothing is mutated, nothing notified (lines 315-316). -/
  | noChange (name : String) (total : Int)
  deriving DecidableEq

/-- Processing of one target inside `Yad2MultiMonitor.run` (lines 257-316),
given the already-fetched `current_total` (the Selenium fetch is an external
collaborator) and the timestamp string used for the history entry. -/
def checkUrl (s : Store) (name url : String) (currentTotal : Option Int)
    (time : String) : Store × Outcome :=
  match currentTotal with
  | none => (s, Outcome.fetchError name)
  | some t =>
    let key := searchKey url
    match storeFind s key with
    | none =>
      (storeInsert s key ⟨name, url, t, []⟩, Outcome.firstRun name t url)
    | some e =>
      let diff := t - e.last_total
      if diff ≠ 0 then
        let e₂ : SearchEntry :=
          { e with
            last_total := t
            history := histTrim50 (e.history ++ [⟨time, t, diff⟩]) }
        (storeInsert s key e₂, Outcome.changed name url e.last_total t diff)
      else (s, Outcome.noChange name t)

/-- One target's already-fetched inputs for the multi-URL run loop. -/
structure YInput where
  name : String
  url : String
  fetched : Option Int
  time : String
  deriving DecidableEq

/-- The target loop of `Yad2MultiMonitor.run` (lines 257-319): process
targets in order, threading the snapshot store through. -/
def yad2Process (s : Store) : List YInput → Store × List Outcome
  | [] => (s, [])
  | i :: rest =>
    let r₁ := checkUrl s i.name i.url i.fetched i.time
    let r₂ := yad2Process r₁.1 rest
    (r₂.1, r₁.2 :: r₂.2)

/-- Effect-order events of one `Yad2MultiMonitor.run`: a processing event per
target, then the single `save_data()` call of line 322. -/
inductive RunEvent where
  | target (name : String)
  | saved
  deriving DecidableEq

/-- Recognizer for the persistence event. -/
def RunEvent.isSave : RunEvent → Bool
  | RunEvent.saved => true
  | _ => false

/-- The event trace of one `Yad2MultiMonitor.run`: the loop over all targets
(lines 257-319) followed by exactly one `save_data()` (line 322), on every
run, whatever the per-target outcomes were. -/
def yad2RunTrace (inputs : List YInput) : List RunEvent :=
  inputs.map (fun i => RunEvent.target i.name) ++ [RunEvent.saved]

/-! ### `smart_autodeal_monitor.py` — single-model monitor -/

/-- One history entry, `smart_autodeal_monitor.py` lines 224-228. -/
structure SmartHist where
  timestamp : String
  total : Option Int
  fabias : Nat
  deriving DecidableEq

/-- The whole snapshot of the single-model monitor (`load_data`,
lines 37-43). -/
structure SmartData where
  last_total : Option Int
  last_fabia_count : Nat
  last_fabia_ids : List String
  history : List SmartHist
  deriving DecidableEq

/-- The history trim of lines 229-230: keep only the last 100 entries. -/
def histTrim100 (h : List SmartHist) : List SmartHist :=
  if 100 < h.length then h.drop (h.length - 100) else h

/-- `new_ids = set(current_fabia_ids) - set(previous_fabia_ids)`
(line 201), kept in current-list order. -/
def smartNewIds (prev ids : List String) : List String :=
  ids.filter (fun i => decide (i ∉ prev))

/-- Per-run outcome of the single-model monitor (lines 204-218). -/
inductive SmartOutcome where
  /-- The first-run branch: `last_fabia_count == 0 and history == []`. -/
  | firstRun (count : Nat)
  /-- New ids found: one notification listing them. -/
  | newListings (ids : List String)
  /-- Nothing new; no notification. -/
  | noNew
  deriving DecidableEq

/-- One `SmartAutoDealMonitor.run` cycle (lines 178-231), as a function of
the already-fetched total count, the extracted target-model ids in document
order, and the timestamp. Whatever the branch, lines 221-231 then overwrite
`last_total`, `last_fabia_count` and `last_fabia_ids`, append one history
entry, trim the history to 100, and save. -/
def smartStep (d : SmartData) (totalCount : Option Int) (fabiaIds : List String)
    (time : String) : SmartData × SmartOutcome :=
  let newIds := smartNewIds d.last_fabia_ids fabiaIds
  let outcome :=
    if d.last_fabia_count = 0 ∧ d.history = [] then
      SmartOutcome.firstRun fabiaIds.length
    else if newIds ≠ [] then SmartOutcome.newListings newIds
    else SmartOutcome.noNew
  ({ last_total := totalCount
     last_fabia_count := fabiaIds.length
     last_fabia_ids := fabiaIds
     history := histTrim100 (d.history ++ [⟨time, totalCount, fabiaIds.length⟩]) },
   outcome)

/-- Fallback scan of `extract_car_listings` (lines 124-129): keep every `div`
whose stripped text is non-empty, carries a distance or currency marker, and
is shorter than 500 characters. Input: the stripped texts of all divs in
document order. -/
def smartFallbackDivs (divTexts : List String) : List String :=
  divTexts.filter (fun t =>
    t ≠ "" && (strIn "ק״מ" t || strIn "₪" t) && t.length < 500)

/-- The containers actually processed by `extract_car_listings` when no
structural selector matched: the fallback candidates capped by
`elements[:50]` (line 131). -/
def smartFallbackProcessed (divTexts : List String) : List String :=
  (smartFallbackDivs divTexts).take 50

/-- Sanity anchor: the embedded MD5 agrees with the reference digest of the
empty string. -/
theorem extract_car_id_empty :
    extract_car_id "" = "d41d8cd98f00b204e9800998ecf8427e" := by decide

/-- Sanity anchor: the embedded MD5 agrees with the reference digest of "abc". -/
theorem extract_car_id_abc :
    extract_car_id "abc" = "900150983cd24fb0d6963f7d28e17f72" := by decide

/-! ### Helper lemmas -/

/-- The ids reported new by the seen-set diff are exactly the extracted ids
that were not in the seen set. -/
theorem carDiff_new_mem (cars : List String) : ∀ (seen : List String) (x : String),
    x ∈ (carDiff seen cars).1 ↔ x ∈ cars ∧ x ∉ seen := by
  induction cars with
  | nil => intro seen x; simp [carDiff]
  | cons c rest ih =>
    intro seen x
    by_cases hc : c ∈ seen
    · simp only [carDiff, if_pos hc, ih, List.mem_cons]
      constructor
      · rintro ⟨hr, hs⟩; exact ⟨Or.inr hr, hs⟩
      · rintro ⟨hor, hs⟩
        rcases hor with he | hr
        · exact absurd (he ▸ hc) hs
        · exact ⟨hr, hs⟩
    · simp only [carDiff, if_neg hc, List.mem_cons, ih, List.mem_append,
        List.mem_singleton]
      constructor
      · rintro (he | ⟨hr, hs⟩)
        · exact ⟨Or.inl he, he ▸ hc⟩
        · exact ⟨Or.inr hr, fun hm => hs (Or.inl hm)⟩
      · rintro ⟨he | hr, hs⟩
        · exact Or.inl he
        · by_cases hx : x = c
          · exact Or.inl hx
          · exact Or.inr ⟨hr, fun hm => hx (by rcases hm with hm | hm <;> simp_all)⟩

/-- The seen set after the diff holds exactly the previously seen ids and the
currently extracted ones. -/
theorem carDiff_seen_mem (cars : List String) : ∀ (seen : List String) (x : String),
    x ∈ (carDiff seen cars).2 ↔ x ∈ seen ∨ x ∈ cars := by
  induction cars with
  | nil => intro seen x; simp [carDiff]
  | cons c rest ih =>
    intro seen x
    by_cases hc : c ∈ seen
    · simp only [carDiff, if_pos hc, ih, List.mem_cons]
      constructor
      · rintro (hs | hr)
        · exact Or.inl hs
        · exact Or.inr (Or.inr hr)
      · rintro (hs | he | hr)
        · exact Or.inl hs
        · exact Or.inl (he ▸ hc)
        · exact Or.inr hr
    · simp only [carDiff, if_neg hc, ih, List.mem_append, List.mem_singleton,
        List.mem_cons]
      tauto

/-- Looking up the key just written returns the value just written. -/
theorem storeFind_insert_self (s : Store) (k : String) (e : SearchEntry) :
    storeFind (storeInsert s k e) k = some e := by
  induction s with
  | nil => simp [storeInsert, storeFind]
  | cons p rest ih =>
    by_cases hp : p.1 = k
    · simp [storeInsert, hp, storeFind]
    · simp [storeInsert, hp, storeFind, ih]

/-- Every binding of the store after a write is either the new binding or one
of the old ones. -/
theorem mem_storeInsert (s : Store) (k : String) (e : SearchEntry) :
    ∀ p ∈ storeInsert s k e, p = (k, e) ∨ p ∈ s := by
  induction s with
  | nil => intro p hp; simp [storeInsert] at hp; exact Or.inl hp
  | cons q rest ih =>
    intro p hp
    by_cases hq : q.1 = k
    · simp only [storeInsert, if_pos hq, List.mem_cons] at hp
      rcases hp with hp | hp
      · exact Or.inl hp
      · exact Or.inr (List.mem_cons_of_mem q hp)
    · simp only [storeInsert, if_neg hq, List.mem_cons] at hp
      rcases hp with hp | hp
      · exact Or.inr (hp ▸ List.mem_cons_self q rest)
      · rcases ih p hp with h | h
        · exact Or.inl h
        · exact Or.inr (List.mem_cons_of_mem q h)

/-- The trimmed history is always a suffix of the untrimmed one. -/
theorem histTrim50_suffix (h : List HistEntry) :
    ∃ pre, pre ++ histTrim50 h = h := by
  unfold histTrim50
  split
  · exact ⟨h.take (h.length - 50), List.take_append_drop _ h⟩
  · exact ⟨[], rfl⟩

/-- The trim of the multi-URL history is bounded by 50 outright whenever the
branch that drops entries fires, and in every case by `min`. -/
theorem histTrim50_length (h : List HistEntry) :
    (histTrim50 h).length = min h.length 50 := by
  unfold histTrim50
  split <;> first
  | (simp only [List.length_drop]; omega)
  | omega

/-- The single-model history trim is bounded by 100. -/
theorem histTrim100_length (h : List SmartHist) :
    (histTrim100 h).length = min h.length 100 := by
  unfold histTrim100
  split <;> first
  | (simp only [List.length_drop]; omega)
  | omega

/-- The single-model trimmed history is a suffix of the untrimmed one. -/
theorem histTrim100_suffix (h : List SmartHist) :
    ∃ pre, pre ++ histTrim100 h = h := by
  unfold histTrim100
  split
  · exact ⟨h.take (h.length - 100), List.take_append_drop _ h⟩
  · exact ⟨[], rfl⟩

/-- Processing one target preserves the 50-entry history bound on every
stored search slot. -/
theorem checkUrl_history_bound (s : Store) (name url : String)
    (tot : Option Int) (time : String)
    (hs : ∀ p ∈ s, p.2.history.length ≤ 50) :
    ∀ p ∈ (checkUrl s name url tot time).1, p.2.history.length ≤ 50 := by
  intro p hp
  cases tot with
  | none => exact hs p hp
  | some t =>
    cases hfind : storeFind s (searchKey url) with
    | none =>
      simp only [checkUrl, hfind] at hp
      rcases mem_storeInsert _ _ _ p hp with h | h
      · subst h; simp
      · exact hs p h
    | some e =>
      by_cases hd : t - e.last_total ≠ 0
      · simp only [checkUrl, hfind, if_pos hd] at hp
        rcases mem_storeInsert _ _ _ p hp with h | h
        · subst h
          have h₁ := histTrim50_length (e.history ++ [⟨time, t, t - e.last_total⟩])
          simp only [List.length_append, List.length_singleton] at h₁
          simp only [h₁]
          omega
        · exact hs p h
      · simp only [checkUrl, hfind, if_neg hd] at hp
        exact hs p hp

/-- Running the whole multi-URL target loop preserves the 50-entry history
bound on every stored search slot. -/
theorem yad2Process_history_bound (inputs : List YInput) : ∀ (s : Store),
    (∀ p ∈ s, p.2.history.length ≤ 50) →
    ∀ p ∈ (yad2Process s inputs).1, p.2.history.length ≤ 50 := by
  induction inputs with
  | nil => intro s hs p hp; exact hs p hp
  | cons i rest ih =>
    intro s hs p hp
    simp only [yad2Process] at hp
    exact ih _ (checkUrl_history_bound s i.name i.url i.fetched i.time hs) p hp

/-- The target-processing events of a run trace contain no persistence
event. -/
theorem filter_isSave_map_target (inputs : List YInput) :
    (inputs.map (fun i => RunEvent.target i.name)).filter RunEvent.isSave = [] := by
  induction inputs with
  | nil => rfl
  | cons i rest ih => simp [RunEvent.isSave, ih]

/-! ### Claim theorems -/

/-- C1: evaluation of the basic scraper's run at two inputs on which the
claim fails. With prior seen set containing the id "a" and a current
extraction consisting of that same listing, the run still sends the
"monitor initialized" message, because line 246 infers first-run from
`len(seen) <= len(cars)`; and on a genuine first run (empty prior store,
one extracted car "x"), the run sends a per-record "New Car Listed!"
message for it, reporting an extracted record as new. -/
theorem C1_car_first_run_eval :
    (carRun ["a"] ["a"]).messages = [CarMsg.initMsg 1] ∧
    CarMsg.newCar "x" ∈ (carRun [] ["x"]).messages := by decide

/-- C2 (amended): in the multi-URL monitor, a target whose fetched total is
null is reported as a fetch error, leaves the snapshot store untouched, and
the remaining targets are processed exactly as they would be from the
unchanged store. -/
theorem C2_multiurl_null_total (s : Store) (name url time : String)
    (rest : List YInput) :
    checkUrl s name url none time = (s, Outcome.fetchError name) ∧
    yad2Process s (⟨name, url, none, time⟩ :: rest) =
      ((yad2Process s rest).1, Outcome.fetchError name :: (yad2Process s rest).2) := by
  constructor
  · rfl
  · simp [yad2Process, checkUrl]

/-- C2 counterexample: in the single-model monitor, a null fetched total is
not reported as a fetch error and does not leave the snapshot unchanged —
the run overwrites `last_total` with the null, appends a history entry, and
ends in the ordinary no-new outcome. -/
theorem C2_smart_null_total_cex :
    (smartStep ⟨some 5, 1, ["a"], [⟨"t0", some 5, 1⟩]⟩ none ["a"] "t1").1 ≠
      ⟨some 5, 1, ["a"], [⟨"t0", some 5, 1⟩]⟩ ∧
    (smartStep ⟨some 5, 1, ["a"], [⟨"t0", some 5, 1⟩]⟩ none ["a"] "t1").1.last_total
      = none ∧
    (smartStep ⟨some 5, 1, ["a"], [⟨"t0", some 5, 1⟩]⟩ none ["a"] "t1").1.history.length
      = 2 ∧
    (smartStep ⟨some 5, 1, ["a"], [⟨"t0", some 5, 1⟩]⟩ none ["a"] "t1").2
      = SmartOutcome.noNew := by decide

/-- C3 (amended): in set-based mode the reported delta is exactly `C \ S` in
both scripts; the basic scraper's stored set after the run is `S ∪ C`, so it
grows monotonically, while the single-model monitor overwrites its stored
identity list with the current one. -/
theorem C3_set_mode_diff (seen cars : List String) (d : SmartData)
    (tc : Option Int) (ids : List String) (tm : String) :
    (∀ x, x ∈ (carDiff seen cars).1 ↔ x ∈ cars ∧ x ∉ seen) ∧
    (∀ x, x ∈ (carDiff seen cars).2 ↔ x ∈ seen ∨ x ∈ cars) ∧
    (∀ x, x ∈ seen → x ∈ (carDiff seen cars).2) ∧
    (∀ x, x ∈ smartNewIds d.last_fabia_ids ids ↔ x ∈ ids ∧ x ∉ d.last_fabia_ids) ∧
    (smartStep d tc ids tm).1.last_fabia_ids = ids := by
  refine ⟨carDiff_new_mem cars seen, carDiff_seen_mem cars seen, ?_, ?_, rfl⟩
  · intro x hx
    exact (carDiff_seen_mem cars seen x).mpr (Or.inl hx)
  · intro x
    simp [smartNewIds]

/-- C3 counterexample: the single-model monitor forgets a previously seen
identity — with stored ids `{a}` (and non-empty history) and current
extraction `{b}`, the stored list after the run is `["b"]` and "a" is gone,
so the snapshot set did not grow monotonically; a further run in which "a"
reappears reports "a" as new again. -/
theorem C3_smart_overwrite_cex :
    "a" ∈ (⟨some 5, 1, ["a"], [⟨"t0", some 5, 1⟩]⟩ : SmartData).last_fabia_ids ∧
    "a" ∉ (smartStep ⟨some 5, 1, ["a"], [⟨"t0", some 5, 1⟩]⟩ (some 5) ["b"] "t1").1.last_fabia_ids ∧
    (smartStep (smartStep ⟨some 5, 1, ["a"], [⟨"t0", some 5, 1⟩]⟩ (some 5) ["b"] "t1").1
        (some 5) ["a"] "t2").2 = SmartOutcome.newListings ["a"] := by decide

/-- C4 (amended): the multi-URL monitor persists its snapshot store exactly
once per run, after all targets have been processed, on every run — the run
trace ends with the single persistence event, which never occurs among the
per-target events. -/
theorem C4_persist_once_after_targets (inputs : List YInput) :
    ((yad2RunTrace inputs).filter RunEvent.isSave).length = 1 ∧
    (yad2RunTrace inputs).dropLast = inputs.map (fun i => RunEvent.target i.name) ∧
    (yad2RunTrace inputs).getLast? = some RunEvent.saved := by
  refine ⟨?_, ?_, ?_⟩
  · simp [yad2RunTrace, List.filter_append, filter_isSave_map_target, RunEvent.isSave]
  · simp [yad2RunTrace]
  · simp [yad2RunTrace]

/-- C4 counterexample: the basic scraper does not persist on every run — a
run that found no new records (prior seen set `{a}`, extraction `[a]`)
performs zero persistence operations, because `save_seen_cars` is only
called inside the `if new_cars:` branch. -/
theorem C4_car_skip_save_cex : (carRun ["a"] ["a"]).saves = 0 := by decide

/-- C5: in the multi-URL monitor, for a target with a prior snapshot entry
and a non-null fetched total, the delta is `current_total - last_total`;
when it is non-zero the slot is rewritten with the new total and the
trimmed history extended by one entry recording the new total and the
delta, and the change outcome is emitted; when it is zero the store is left
untouched and the no-change outcome is produced. -/
theorem C5_counter_delta (s : Store) (e : SearchEntry) (name url time : String)
    (t : Int) (hl : storeFind s (searchKey url) = some e) :
    (t - e.last_total ≠ 0 →
      checkUrl s name url (some t) time =
        (storeInsert s (searchKey url)
          { e with
            last_total := t
            history := histTrim50 (e.history ++ [⟨time, t, t - e.last_total⟩]) },
         Outcome.changed name url e.last_total t (t - e.last_total))) ∧
    (t - e.last_total = 0 →
      checkUrl s name url (some t) time = (s, Outcome.noChange name t)) := by
  constructor
  · intro h
    simp [checkUrl, hl, if_pos h]
  · intro h
    simp [checkUrl, hl, h]

/-- C5 witness: concrete run of the per-target step on a one-slot store,
once with a changed total and once with an unchanged one. -/
theorem C5_counter_delta_witness :
    checkUrl [("u", ⟨"n", "u", 3, []⟩)] "n" "u" (some 5) "t1" =
      ([("u", ⟨"n", "u", 5, [⟨"t1", 5, 2⟩]⟩)], Outcome.changed "n" "u" 3 5 2) ∧
    checkUrl [("u", ⟨"n", "u", 3, []⟩)] "n" "u" (some 3) "t1" =
      ([("u", ⟨"n", "u", 3, []⟩)], Outcome.noChange "n" 3) := by
  constructor
  · have h := (C5_counter_delta [("u", ⟨"n", "u", 3, []⟩)] ⟨"n", "u", 3, []⟩
      "n" "u" "t1" 5 (by decide)).1 (by decide)
    rw [h]; decide
  · have h := (C5_counter_delta [("u", ⟨"n", "u", 3, []⟩)] ⟨"n", "u", 3, []⟩
      "n" "u" "t1" 3 (by decide)).2 (by decide)
    rw [h]

/-- C6: the stored history never exceeds its bound — 50 entries per search
in the multi-URL monitor (preserved by a whole run from any store satisfying
the bound) and 100 entries in the single-model monitor (outright) — and the
retained entries are a suffix of the appended sequence, i.e. the most
recently appended entries in their original chronological order. -/
theorem C6_history_bound (s : Store) (inputs : List YInput)
    (hs : ∀ p ∈ s, p.2.history.length ≤ 50)
    (d : SmartData) (tc : Option Int) (ids : List String) (tm : String)
    (e : SearchEntry) (t : Int) (time : String) :
    (∀ p ∈ (yad2Process s inputs).1, p.2.history.length ≤ 50) ∧
    (smartStep d tc ids tm).1.history.length ≤ 100 ∧
    (∃ pre, pre ++ (smartStep d tc ids tm).1.history =
      d.history ++ [⟨tm, tc, ids.length⟩]) ∧
    (∃ pre, pre ++ histTrim50 (e.history ++ [⟨time, t, t - e.last_total⟩]) =
      e.history ++ [⟨time, t, t - e.last_total⟩]) := by
  refine ⟨yad2Process_history_bound inputs s hs, ?_, ?_, histTrim50_suffix _⟩
  · have h := histTrim100_length (d.history ++ [⟨tm, tc, ids.length⟩])
    simp only [smartStep, h]
    omega
  · exact histTrim100_suffix _

/-- C6 witness: the bound holds after a concrete run of each monitor. -/
theorem C6_history_bound_witness :
    (∀ p ∈ (yad2Process [("u", ⟨"n", "u", 3, [⟨"t0", 3, 1⟩]⟩)]
        [⟨"n", "u", some 5, "t1"⟩]).1, p.2.history.length ≤ 50) ∧
    (smartStep ⟨some 5, 1, ["a"], [⟨"t0", some 5, 1⟩]⟩ (some 6) ["a"] "t1").1.history.length ≤ 100 ∧
    (∃ pre, pre ++ (smartStep ⟨some 5, 1, ["a"], [⟨"t0", some 5, 1⟩]⟩ (some 6) ["a"] "t1").1.history =
      (⟨some 5, 1, ["a"], [⟨"t0", some 5, 1⟩]⟩ : SmartData).history ++ [⟨"t1", some 6, 1⟩]) ∧
    (∃ pre, pre ++ histTrim50 ((⟨"n", "u", 3, [⟨"t0", 3, 1⟩]⟩ : SearchEntry).history ++
        [⟨"t1", 5, 5 - (3 : Int)⟩]) =
      (⟨"n", "u", 3, [⟨"t0", 3, 1⟩]⟩ : SearchEntry).history ++ [⟨"t1", 5, 5 - (3 : Int)⟩]) :=
  C6_history_bound [("u", ⟨"n", "u", 3, [⟨"t0", 3, 1⟩]⟩)] [⟨"n", "u", some 5, "t1"⟩]
    (by decide) ⟨some 5, 1, ["a"], [⟨"t0", some 5, 1⟩]⟩ (some 6) ["a"] "t1"
    ⟨"n", "u", 3, [⟨"t0", 3, 1⟩]⟩ 5 "t1"

/-- C7 (amended): in the single-model monitor the fallback scan's candidates
are capped — at most 50 containers are ever processed, no matter how many
divs carry the domain markers. -/
theorem C7_smart_fallback_cap (divTexts : List String) :
    (smartFallbackProcessed divTexts).length ≤ 50 := by
  simp only [smartFallbackProcessed, List.length_take]
  omega

/-- C7 counterexample: the basic scraper's generic fallback has no such cap —
a page with 51 divs whose class string carries the "item" marker yields 51
candidate containers, all of which the extraction loop processes. -/
theorem C7_car_fallback_unbounded_cex :
    50 < (carFallbackDivs (List.replicate 51 "item")).length := by decide

/-- C8: identity derivation is a pure deterministic function of the record's
text (basic scraper: MD5 of the listing text) and of its extracted fields
(single-model monitor: the model/year/price composite key) — equal inputs
always yield equal identity strings, within a run, across runs, and across
restarts, since the functions depend on nothing but their arguments. -/
theorem C8_identity_deterministic (t₁ t₂ : String) (m y p : Option String)
    (h : t₁ = t₂) :
    extract_car_id t₁ = extract_car_id t₂ ∧
    smart_car_id m y p = smart_car_id m y p :=
  ⟨by rw [h], rfl⟩

/-- C8 witness: the determinism theorem applied at a concrete listing text
and a concrete field triple. -/
theorem C8_identity_deterministic_witness :
    extract_car_id "abc" = extract_car_id "abc" ∧
    smart_car_id (some "skoda") (some "2020") (some "50,000") =
      smart_car_id (some "skoda") (some "2020") (some "50,000") :=
  C8_identity_deterministic "abc" "abc" (some "skoda") (some "2020")
    (some "50,000") rfl

/-- C9: the multi-URL monitor's snapshot slot key is exactly the first 100
characters of the target URL, so two distinct targets agreeing on that
prefix share one slot: on a store with no entry for the shared key, the
first target is classified first-run and the second is never first-run —
it is diffed against the total the first target just stored. -/
theorem C9_key_collision (u₁ u₂ n₁ n₂ tm₁ tm₂ : String) (t₁ t₂ : Int)
    (s : Store) (hkey : searchKey u₁ = searchKey u₂)
    (hfresh : storeFind s (searchKey u₁) = none) :
    searchKey u₁ = u₁.take 100 ∧
    (yad2Process s [⟨n₁, u₁, some t₁, tm₁⟩, ⟨n₂, u₂, some t₂, tm₂⟩]).2 =
      [Outcome.firstRun n₁ t₁ u₁,
       if t₂ - t₁ ≠ 0 then Outcome.changed n₂ u₂ t₁ t₂ (t₂ - t₁)
       else Outcome.noChange n₂ t₂] := by
  refine ⟨rfl, ?_⟩
  have h₂ : storeFind (storeInsert s (searchKey u₁) ⟨n₁, u₁, t₁, []⟩)
      (searchKey u₂) = some ⟨n₁, u₁, t₁, []⟩ := by
    rw [← hkey]; exact storeFind_insert_self s (searchKey u₁) ⟨n₁, u₁, t₁, []⟩
  by_cases hd : t₂ - t₁ ≠ 0
  · simp [yad2Process, checkUrl, hfresh, h₂, hd]
  · simp [yad2Process, checkUrl, hfresh, h₂, hd]

/-- C9 witness: two concrete 101-character URLs sharing their first 100
characters, run against an empty store. -/
theorem C9_key_collision_witness :
    (yad2Process []
      [⟨"n1", String.mk (List.replicate 100 'a') ++ "b", some 3, "t1"⟩,
       ⟨"n2", String.mk (List.replicate 100 'a') ++ "c", some 5, "t2"⟩]).2 =
      [Outcome.firstRun "n1" 3 (String.mk (List.replicate 100 'a') ++ "b"),
       Outcome.changed "n2" (String.mk (List.replicate 100 'a') ++ "c") 3 5 2] := by
  have h := (C9_key_collision (String.mk (List.replicate 100 'a') ++ "b")
      (String.mk (List.replicate 100 'a') ++ "c") "n1" "n2" "t1" "t2" 3 5 []
      (by decide) (by decide)).2
  rw [h]
  decide

/-- C10: in set-based mode the basic scraper's per-run new-record messages
are exactly one message per new record for the first 5 new records in
extraction order, plus exactly one summary stating the total count when more
than 5 were found — never more than 6 messages in total. -/
theorem C10_message_cap (seen cars : List String) :
    (carRun seen cars).newIds = (carDiff seen cars).1 ∧
    (carRun seen cars).messages = carNewRecordMsgs (carDiff seen cars).1 ++
      (if (carDiff seen cars).2.length ≤ cars.length
        then [CarMsg.initMsg cars.length] else []) ∧
    carNewRecordMsgs (carDiff seen cars).1 =
      ((carDiff seen cars).1.take 5).map CarMsg.newCar ++
        (if 5 < (carDiff seen cars).1.length
          then [CarMsg.moreSummary (carDiff seen cars).1.length] else []) ∧
    (carNewRecordMsgs (carDiff seen cars).1).length ≤ 6 := by
  refine ⟨rfl, rfl, rfl, ?_⟩
  simp only [carNewRecordMsgs, List.length_append, List.length_map,
    List.length_take]
  split <;> simp only [List.length_singleton, List.length_nil] <;> omega

end Yad2Verification
